import Mathlib

/-!
Verification of the profile-calculator core: a shallow embedding of
`ProfileValidator` (src/standalone/js/modules/profiles/profileTypes.js and the
inline copy in src/standalone/test/profileTypes.html) and `ProfileCalculator`
(src/standalone/js/modules/calculations/profileCalculator.js), together with
theorems settling the specification claims about them.

Modelling conventions: JavaScript numbers are idealised as exact numbers
(rationals inside dimension objects, values in a linear ordered field for the
calculator's arithmetic); the IEEE specials NaN and the two infinities are
represented explicitly because the validator's comparison semantics depends on
them.  A dimensions object is an association list from property names to
values.  `Math.PI` and `Math.sqrt` are abstracted as parameters `pi` and
`sqrt` so every definition stays computable; theorems about their values
instantiate them with `Real.pi` and `Real.sqrt`.
-/

namespace ProfileCalc

/-- A JavaScript value stored in a dimensions object.  `num` is a finite
number, `nan`, `inf`, `ninf` are the IEEE specials (all of JavaScript type
"number"), and `other` is a value of non-number type, which coerces to NaN
in arithmetic (as `undefined` or a non-numeric string does). -/
inductive JSVal where
  | num (q : ℚ)
  | nan
  | inf
  | ninf
  | other
deriving DecidableEq

/-- The result of JavaScript's ToNumber coercion: a finite number, NaN, or an
infinity. -/
inductive JSNum where
  | num (q : ℚ)
  | nan
  | inf
  | ninf
deriving DecidableEq

/-- A JavaScript object holding dimension properties, as an association list
(all objects appearing in the repository have pairwise distinct keys). -/
abbrev Dimensions := List (String × JSVal)

/-- Property read `dimensions[k]`: `none` when the property is absent. -/
def getProp (d : Dimensions) (k : String) : Option JSVal :=
  d.lookup k

/-- The `typeof v === 'number'` test: NaN and the infinities are numbers. -/
def JSVal.isNumberType : JSVal → Bool
  | .num _ => true
  | .nan => true
  | .inf => true
  | .ninf => true
  | .other => false

/-- ToNumber coercion of a value: non-number values coerce to NaN here
(`undefined` and the non-numeric strings the validator can meet). -/
def JSVal.toNum : JSVal → JSNum
  | .num q => .num q
  | .nan => .nan
  | .inf => .inf
  | .ninf => .ninf
  | .other => .nan

/-- Reading a property as a number, as the validator's arithmetic does:
an absent property is `undefined`, which coerces to NaN. -/
def propNum (d : Dimensions) (k : String) : JSNum :=
  match getProp d k with
  | some v => v.toNum
  | none => .nan

/-- Halving, for the source's `... / 2` subexpressions. -/
def JSNum.half : JSNum → JSNum
  | .num q => .num (q / 2)
  | .nan => .nan
  | .inf => .inf
  | .ninf => .ninf

/-- `Math.min`: NaN-propagating minimum. -/
def JSNum.min : JSNum → JSNum → JSNum
  | .nan, _ => .nan
  | _, .nan => .nan
  | .ninf, _ => .ninf
  | _, .ninf => .ninf
  | .inf, b => b
  | a, .inf => a
  | .num a, .num b => .num (Min.min a b)

/-- JavaScript `a >= b` on numbers: false whenever either side is NaN. -/
def JSNum.ge : JSNum → JSNum → Bool
  | .nan, _ => false
  | _, .nan => false
  | .inf, _ => true
  | _, .inf => false
  | _, .ninf => true
  | .ninf, _ => false
  | .num a, .num b => decide (b ≤ a)

/-- JavaScript `v <= 0`: false for NaN and +Infinity, true for -Infinity. -/
def JSNum.le0 : JSNum → Bool
  | .num q => decide (q ≤ 0)
  | .nan => false
  | .inf => false
  | .ninf => true

/-- JavaScript `v < 0`: false for NaN and +Infinity, true for -Infinity. -/
def JSNum.lt0 : JSNum → Bool
  | .num q => decide (q < 0)
  | .nan => false
  | .inf => false
  | .ninf => true

/-- Truthiness of `ProfileType[type]`: the lookup hits one of the object's
KEYS (profileTypes.js lines 13-23); every value of the object is a non-empty
string and hence truthy. -/
def isProfileTypeKey (t : String) : Bool :=
  t == "ROUND_TUBE" || t == "SQUARE_TUBE" || t == "RECTANGULAR_TUBE" ||
    t == "ANGLE" || t == "CHANNEL" || t == "I_BEAM"

/-- The test `Object.values(ProfileType).includes(type)` used by the inline
validator copy in src/standalone/test/profileTypes.html (line 131): membership
among the six recognised profile-type VALUES. -/
def isProfileTypeValue (t : String) : Bool :=
  t == "round_tube" || t == "square_tube" || t == "rectangular_tube" ||
    t == "angle" || t == "channel" || t == "i_beam"

/-- The `RequiredDimensions` table (profileTypes.js lines 26-33).  Its keys are
the ProfileType VALUES; looking up any other string yields `undefined`
(`none`). -/
def RequiredDimensions (t : String) : Option (List String) :=
  if t = "round_tube" then some ["diameter", "thickness", "length"]
  else if t = "square_tube" then some ["width", "thickness", "length"]
  else if t = "rectangular_tube" then some ["width", "height", "thickness", "length"]
  else if t = "angle" then some ["width", "height", "thickness", "length"]
  else if t = "channel" then some ["width", "height", "thickness", "length", "flange_width"]
  else if t = "i_beam" then some ["width", "height", "web_thickness", "flange_thickness", "length"]
  else none

/-- The `OptionalDimensions` table (profileTypes.js lines 36-43), likewise
keyed by the ProfileType values. -/
def OptionalDimensions (t : String) : Option (List String) :=
  if t = "round_tube" then some ["outer_radius"]
  else if t = "square_tube" then some ["outer_radius", "inner_radius"]
  else if t = "rectangular_tube" then some ["outer_radius", "inner_radius"]
  else if t = "angle" then some ["inner_radius", "toe_radius"]
  else if t = "channel" then some ["root_radius", "toe_radius"]
  else if t = "i_beam" then some ["root_radius", "toe_radius", "k_dimension"]
  else none

/-- The validation result object built by `validateDimensions`. -/
structure ValidationResult where
  isValid : Bool
  errors : List String
  warnings : List String
deriving DecidableEq

/-- The statement pair `result.isValid = false; result.errors.push(msg)`. -/
def pushError (r : ValidationResult) (msg : String) : ValidationResult :=
  ⟨false, r.errors ++ [msg], r.warnings⟩

/-- The statement `result.warnings.push(msg)` (does not touch `isValid`). -/
def pushWarning (r : ValidationResult) (msg : String) : ValidationResult :=
  ⟨r.isValid, r.errors, r.warnings ++ [msg]⟩

/-- One iteration of the required-dimensions loop (profileTypes.js lines
108-116): error when the property is missing, else when its value is of
non-number type or `<= 0`. -/
def checkRequired (d : Dimensions) (r : ValidationResult) (dim : String) : ValidationResult :=
  match getProp d dim with
  | none => pushError r ("Missing required dimension: " ++ dim)
  | some v =>
    if !v.isNumberType || v.toNum.le0 then
      pushError r ("Invalid value for " ++ dim ++ ": must be a positive number")
    else r

/-- One iteration of the optional-dimensions loop (profileTypes.js lines
120-126): a present non-number or negative value only warns. -/
def checkOptional (d : Dimensions) (r : ValidationResult) (dim : String) : ValidationResult :=
  match getProp d dim with
  | none => r
  | some v =>
    if !v.isNumberType || v.toNum.lt0 then
      pushWarning r ("Invalid value for optional dimension " ++ dim ++
        ": must be a non-negative number")
    else r

/-- The profile-specific `switch` (profileTypes.js lines 129-151).  The
square/rectangular case shares one branch comparing against
`Math.min(dimensions.width, dimensions.height)`, so for a square tube with no
`height` property the minimum is NaN. -/
def specificCheck (t : String) (d : Dimensions) (r : ValidationResult) : ValidationResult :=
  if t = "round_tube" then
    if JSNum.ge (propNum d "thickness") (propNum d "diameter").half then
      pushError r "Thickness must be less than radius"
    else r
  else if t = "square_tube" ∨ t = "rectangular_tube" then
    if JSNum.ge (propNum d "thickness")
        ((JSNum.min (propNum d "width") (propNum d "height")).half) then
      pushError r "Thickness must be less than half of the smallest dimension"
    else r
  else if t = "angle" then
    if JSNum.ge (propNum d "thickness")
        (JSNum.min (propNum d "width") (propNum d "height")) then
      pushError r "Thickness must be less than width and height"
    else r
  else r

/-- The TypeError JavaScript raises when `for (const dim of undefined)` runs. -/
def iterTypeError : String := "TypeError: required is not iterable"

/-- The body of `validateDimensions` after the type-existence check: the
required loop, the optional loop, then the profile-specific switch.  When a
table lookup yields `undefined` the `for...of` over it throws. -/
def validateAfterTypeCheck (t : String) (d : Dimensions) : Except String ValidationResult :=
  match RequiredDimensions t with
  | none => .error iterTypeError
  | some required =>
    let r1 := required.foldl (checkRequired d) ⟨true, [], []⟩
    match OptionalDimensions t with
    | none => .error iterTypeError
    | some optional =>
      let r2 := optional.foldl (checkOptional d) r1
      .ok (specificCheck t d r2)

/-- `ProfileValidator.validateDimensions` from
src/standalone/js/modules/profiles/profileTypes.js (lines 92-154).  The
type-existence check is `if (!ProfileType[type])`: a lookup of `type` among
the KEYS of the ProfileType object (ROUND_TUBE, ...), not its values. -/
def validateDimensions (t : String) (d : Dimensions) : Except String ValidationResult :=
  if isProfileTypeKey t then
    validateAfterTypeCheck t d
  else
    .ok ⟨false, ["Invalid profile type: " ++ t], []⟩

/-- The inline copy of `validateDimensions` in
src/standalone/test/profileTypes.html (lines 123-198): identical to the module
version except that the type check is
`if (!Object.values(ProfileType).includes(type))`. -/
def validateDimensionsTest (t : String) (d : Dimensions) : Except String ValidationResult :=
  if isProfileTypeValue t then
    validateAfterTypeCheck t d
  else
    .ok ⟨false, ["Invalid profile type: " ++ t], []⟩

/-- A `{min, max}` range entry of the dimension-limits tables. -/
structure DimLimit where
  lo : ℚ
  hi : ℚ
deriving DecidableEq

/-- The `commonLimits` object (profileTypes.js lines 162-165). -/
def commonLimits : List (String × DimLimit) :=
  [("length", ⟨1, 1000000⟩), ("thickness", ⟨1/10, 100⟩)]

/-- `ProfileValidator.getDimensionLimits` (profileTypes.js lines 161-202):
builds the per-type limits tables and returns `specificLimits[type] || {}` --
the EMPTY object for any unknown type. -/
def getDimensionLimits (t : String) : List (String × DimLimit) :=
  if t = "round_tube" then [("diameter", ⟨1, 1000⟩)] ++ commonLimits
  else if t = "square_tube" then [("width", ⟨1, 1000⟩)] ++ commonLimits
  else if t = "rectangular_tube" then
    [("width", ⟨1, 1000⟩), ("height", ⟨1, 1000⟩)] ++ commonLimits
  else if t = "angle" then
    [("width", ⟨1, 1000⟩), ("height", ⟨1, 1000⟩)] ++ commonLimits
  else if t = "channel" then
    [("width", ⟨1, 1000⟩), ("height", ⟨1, 1000⟩), ("flange_width", ⟨1, 500⟩)] ++ commonLimits
  else if t = "i_beam" then
    [("width", ⟨1, 1000⟩), ("height", ⟨1, 2000⟩), ("web_thickness", ⟨1/10, 100⟩),
      ("flange_thickness", ⟨1/10, 100⟩)] ++ commonLimits
  else []

variable {K : Type} [LinearOrderedField K]

/-- Reading a dimension inside the calculator, which does plain number
arithmetic on `dimensions.<k>`.  The claims evaluate the calculator only on
finite numeric entries; an absent or non-numeric entry (NaN arithmetic in the
source) is modelled by the junk value 0. -/
def getR (d : Dimensions) (k : String) : K :=
  match getProp d k with
  | some (.num q) => (q : K)
  | _ => 0

/-- The message of the error every calculator operation throws on an
unrecognised profile type. -/
def unsupportedMsg (t : String) : String := "Unsupported profile type: " ++ t

/-- `ProfileCalculator.calculateArea`
(src/standalone/js/modules/calculations/profileCalculator.js lines 16-53). -/
def calculateArea (pi : K) (t : String) (d : Dimensions) : Except String K :=
  if t = "round_tube" then
    let outerRadius := getR d "diameter" / 2
    let innerRadius := outerRadius - getR d "thickness"
    .ok (pi * (outerRadius * outerRadius - innerRadius * innerRadius))
  else if t = "square_tube" then
    let outer := getR d "width" * getR d "width"
    let inner := (getR d "width" - 2 * getR d "thickness") *
      (getR d "width" - 2 * getR d "thickness")
    .ok (outer - inner)
  else if t = "rectangular_tube" then
    let outer := getR d "width" * getR d "height"
    let inner := (getR d "width" - 2 * getR d "thickness") *
      (getR d "height" - 2 * getR d "thickness")
    .ok (outer - inner)
  else if t = "angle" then
    .ok ((getR d "width" + getR d "height" - getR d "thickness") * getR d "thickness")
  else if t = "channel" then
    .ok (getR d "height" * getR d "thickness" +
      2 * getR d "flange_width" * getR d "thickness")
  else if t = "i_beam" then
    .ok (getR d "height" * getR d "web_thickness" +
      2 * getR d "width" * getR d "flange_thickness")
  else .error (unsupportedMsg t)

/-- `ProfileCalculator.calculateMomentOfInertiaX` (profileCalculator.js lines
61-113).  The angle branch calls `this.calculateArea(type, dimensions)` and
returns `t*h^3/3 + t^3*b/12 + h*t*(h/2 - yc)^2 + b*t*(t/2 - yc)^2`. -/
def calculateMomentOfInertiaX (pi : K) (t : String) (d : Dimensions) : Except String K :=
  if t = "round_tube" then
    let outerRadius := getR d "diameter" / 2
    let innerRadius := outerRadius - getR d "thickness"
    .ok ((pi / 4) * (outerRadius ^ 4 - innerRadius ^ 4))
  else if t = "square_tube" then
    .ok (getR d "width" ^ 4 / 12 - (getR d "width" - 2 * getR d "thickness") ^ 4 / 12)
  else if t = "rectangular_tube" then
    .ok ((getR d "width" * getR d "height" ^ 3) / 12 -
      ((getR d "width" - 2 * getR d "thickness") *
        (getR d "height" - 2 * getR d "thickness") ^ 3) / 12)
  else if t = "angle" then
    match calculateArea pi t d with
    | .error e => .error e
    | .ok A =>
      let h := getR d "height"
      let b := getR d "width"
      let tk := getR d "thickness"
      let yc := (h * tk * (h / 2) + b * tk * tk / 2) / A
      .ok (tk * h ^ 3 / 3 + tk ^ 3 * b / 12 +
        h * tk * (h / 2 - yc) ^ 2 + b * tk * (tk / 2 - yc) ^ 2)
  else if t = "channel" then
    let h := getR d "height"
    let b := getR d "flange_width"
    let tk := getR d "thickness"
    .ok (tk * h ^ 3 / 12 + 2 * (b * tk ^ 3 / 12 + b * tk * (h / 2) ^ 2))
  else if t = "i_beam" then
    let h := getR d "height"
    let b := getR d "width"
    let tw := getR d "web_thickness"
    let tf := getR d "flange_thickness"
    .ok (tw * (h - 2 * tf) ^ 3 / 12 +
      2 * (b * tf ^ 3 / 12 + b * tf * (h / 2 - tf / 2) ^ 2))
  else .error (unsupportedMsg t)

/-- `ProfileCalculator.calculateSectionModulusX` (profileCalculator.js lines
121-152): computes Ix first (so an unsupported type already throws there),
then divides by the extreme-fibre distance `yMax`. -/
def calculateSectionModulusX (pi : K) (t : String) (d : Dimensions) : Except String K :=
  match calculateMomentOfInertiaX pi t d with
  | .error e => .error e
  | .ok Ix =>
    if t = "round_tube" then .ok (Ix / (getR d "diameter" / 2))
    else if t = "square_tube" then .ok (Ix / (getR d "width" / 2))
    else if t = "rectangular_tube" ∨ t = "channel" ∨ t = "i_beam" then
      .ok (Ix / (getR d "height" / 2))
    else if t = "angle" then
      match calculateArea pi t d with
      | .error e => .error e
      | .ok A =>
        let q := (getR d "height" * getR d "thickness" * (getR d "height" / 2) +
          getR d "width" * getR d "thickness" * getR d "thickness" / 2) / A
        .ok (Ix / Max.max (getR d "height" - q) q)
    else .error (unsupportedMsg t)

/-- `ProfileCalculator.calculateWeightPerLength` (profileCalculator.js lines
161-164): area times caller-supplied density, nothing else. -/
def calculateWeightPerLength (pi : K) (t : String) (d : Dimensions) (density : K) :
    Except String K :=
  match calculateArea pi t d with
  | .error e => .error e
  | .ok area => .ok (area * density)

/-- `ProfileCalculator.calculateRadiusOfGyration` (profileCalculator.js lines
172-176). -/
def calculateRadiusOfGyration (pi : K) (sqrt : K → K) (t : String) (d : Dimensions) :
    Except String K :=
  match calculateArea pi t d with
  | .error e => .error e
  | .ok area =>
    match calculateMomentOfInertiaX pi t d with
    | .error e => .error e
    | .ok Ix => .ok (sqrt (Ix / area))

/-- Claim C2's stated angle formula, declared from the claim's own words for
comparison with the source: each rectangular leg contributes its OWN-centroid
inertia (t*h^3/12, resp. b*t^3/12) plus area times squared centroid offset. -/
def angleInertiaClaim (b h tk : K) : K :=
  let A := (b + h - tk) * tk
  let yc := (h * tk * (h / 2) + b * tk * (tk / 2)) / A
  (tk * h ^ 3 / 12 + h * tk * (h / 2 - yc) ^ 2) +
    (b * tk ^ 3 / 12 + b * tk * (tk / 2 - yc) ^ 2)

/-- The repository test suite's round tube: diameter 100, thickness 5,
length 1000 (all millimetres). -/
def roundTubeDims : Dimensions :=
  [("diameter", .num 100), ("thickness", .num 5), ("length", .num 1000)]

/-- The test suite's angle: width 100, height 100, thickness 8, length 1000. -/
def angleDims : Dimensions :=
  [("width", .num 100), ("height", .num 100), ("thickness", .num 8), ("length", .num 1000)]

/-- The test suite's I-beam: width 150, height 300, web 8, flange 12. -/
def iBeamDims : Dimensions :=
  [("width", .num 150), ("height", .num 300), ("web_thickness", .num 8),
    ("flange_thickness", .num 12), ("length", .num 1000)]

/-- A square tube whose wall thickness equals half its width. -/
def squareTubeThick : Dimensions :=
  [("width", .num 10), ("thickness", .num 5), ("length", .num 100)]

/-- A square tube whose wall thickness far exceeds its width. -/
def squareTubeHuge : Dimensions :=
  [("width", .num 10), ("thickness", .num 500), ("length", .num 1)]

/-- A square tube with a NaN width and an infinite thickness. -/
def squareTubeBadVals : Dimensions :=
  [("width", .nan), ("thickness", .inf), ("length", .num 5)]

/-- The round tube's dimensions expressed in metres: 0.1 m and 0.005 m. -/
def roundTubeDimsMetres : Dimensions :=
  [("diameter", .num (1/10)), ("thickness", .num (1/200)), ("length", .num 1)]

/-- C1 (code_bug evidence).  `validateDimensions` takes the invalid-type
failure path for the recognised value `round_tube` (because `!ProfileType[type]`
looks the value up among the object's keys), never reaching the
required-dimension checks, while the repository's own corrected test-page copy
accepts the same call; and for the key string `ROUND_TUBE` the module version
throws a TypeError instead of returning a result. -/
theorem c1_recognized_value_takes_failure_path :
    validateDimensions "round_tube" roundTubeDims =
      .ok ⟨false, ["Invalid profile type: round_tube"], []⟩ ∧
    validateDimensionsTest "round_tube" roundTubeDims = .ok ⟨true, [], []⟩ ∧
    validateDimensions "ROUND_TUBE" roundTubeDims = .error iterTypeError := by
  refine ⟨rfl, ?_, rfl⟩
  simp [validateDimensionsTest, validateAfterTypeCheck, isProfileTypeValue,
    RequiredDimensions, OptionalDimensions, checkRequired, checkOptional, specificCheck,
    getProp, propNum, pushError, pushWarning, JSVal.isNumberType, JSVal.toNum,
    JSNum.le0, JSNum.lt0, JSNum.ge, JSNum.half, JSNum.min, List.lookup, roundTubeDims]
  norm_num

/-- C2 (code_bug evidence).  On the angle 100 x 100 x 8 the source's
`calculateMomentOfInertiaX` returns 10558075/3 (about 3519358.33), because its
first summand is `t*h^3/3` -- the vertical leg's inertia about its BASE --
while the parallel-axis transfer term `h*t*(h/2 - yc)^2` is added as well; the
claim's centroidal decomposition (`t*h^3/12` own inertia per leg) gives
4558075/3 (about 1519358.33), and the repository's own test expects 147456,
which the code also misses by far. -/
theorem c2_angle_inertia_not_centroidal_decomposition :
    calculateMomentOfInertiaX Real.pi "angle" angleDims = .ok (10558075 / 3) ∧
    angleInertiaClaim (100 : ℝ) 100 8 = 4558075 / 3 ∧
    (10558075 / 3 : ℝ) ≠ 4558075 / 3 ∧
    (147456 : ℝ) + 1 / 1000 < 10558075 / 3 := by
  refine ⟨?_, ?_, by norm_num, by norm_num⟩
  · simp [calculateMomentOfInertiaX, calculateArea, getR, getProp, List.lookup, angleDims]
    norm_num
  · simp [angleInertiaClaim]
    norm_num

/-- C3 (code_bug evidence).  For a square tube with thickness = width/2 the
module validator reports only the invalid-type error (type-check bug), and the
repository's corrected test-page copy accepts the dimensions outright: the
shared square/rectangular branch compares the thickness against
`Math.min(width, height)/2`, which is NaN when no height entry exists, so the
square-tube thickness constraint never fires. -/
theorem c3_square_tube_thickness_rule_never_fires :
    validateDimensions "square_tube" squareTubeThick =
      .ok ⟨false, ["Invalid profile type: square_tube"], []⟩ ∧
    validateDimensionsTest "square_tube" squareTubeThick = .ok ⟨true, [], []⟩ := by
  refine ⟨rfl, ?_⟩
  simp [validateDimensionsTest, validateAfterTypeCheck, isProfileTypeValue,
    RequiredDimensions, OptionalDimensions, checkRequired, checkOptional, specificCheck,
    getProp, propNum, pushError, pushWarning, JSVal.isNumberType, JSVal.toNum,
    JSNum.le0, JSNum.lt0, JSNum.ge, JSNum.half, JSNum.min, List.lookup, squareTubeThick]
  norm_num

/-- C4 (code_bug evidence).  The dimensions width 10, thickness 500, length 1
pass the repository's corrected validator copy with isValid = true (the
square-tube thickness rule compares against a NaN minimum and never fires),
yet `calculateArea` returns -980000 < 0; and under the module validator the
same call short-circuits to the invalid-type failure, so no dimension set at
all validates there. -/
theorem c4_validated_dimensions_with_negative_area :
    validateDimensionsTest "square_tube" squareTubeHuge = .ok ⟨true, [], []⟩ ∧
    calculateArea Real.pi "square_tube" squareTubeHuge = .ok (-980000) ∧
    validateDimensions "square_tube" squareTubeHuge =
      .ok ⟨false, ["Invalid profile type: square_tube"], []⟩ ∧
    (-980000 : ℝ) < 0 := by
  refine ⟨?_, ?_, rfl, by norm_num⟩
  · simp [validateDimensionsTest, validateAfterTypeCheck, isProfileTypeValue,
      RequiredDimensions, OptionalDimensions, checkRequired, checkOptional, specificCheck,
      getProp, propNum, pushError, pushWarning, JSVal.isNumberType, JSVal.toNum,
      JSNum.le0, JSNum.lt0, JSNum.ge, JSNum.half, JSNum.min, List.lookup, squareTubeHuge]
    norm_num
  · simp [calculateArea, getR, getProp, List.lookup, squareTubeHuge]
    norm_num

/-- C6 (code_bug evidence).  With every required dimension missing, the module
validator reports only the invalid-type error instead of the per-dimension
missing errors; the repository's corrected copy does report all three missing
errors without stopping at the first; but that copy accepts a NaN width and an
infinite thickness (typeof NaN === number and NaN <= 0, Infinity <= 0 are both
false), contradicting the claim's "positive finite" requirement. -/
theorem c6_required_dimension_checks :
    validateDimensions "square_tube" [] =
      .ok ⟨false, ["Invalid profile type: square_tube"], []⟩ ∧
    validateDimensionsTest "square_tube" [] =
      .ok ⟨false, ["Missing required dimension: width",
        "Missing required dimension: thickness", "Missing required dimension: length"], []⟩ ∧
    validateDimensionsTest "square_tube" squareTubeBadVals = .ok ⟨true, [], []⟩ := by
  refine ⟨rfl, rfl, ?_⟩
  simp [validateDimensionsTest, validateAfterTypeCheck, isProfileTypeValue,
    RequiredDimensions, OptionalDimensions, checkRequired, checkOptional, specificCheck,
    getProp, propNum, pushError, pushWarning, JSVal.isNumberType, JSVal.toNum,
    JSNum.le0, JSNum.lt0, JSNum.ge, JSNum.half, JSNum.min, List.lookup, squareTubeBadVals]

/-- C8 (counterexample).  On the spec's I-beam input the source formula
`height*web_thickness + 2*width*flange_thickness` evaluates to
300*8 + 2*150*12 = 6000, not the claimed 4800. -/
theorem c8_counterexample_area_not_4800 :
    calculateArea Real.pi "i_beam" iBeamDims = .ok 6000 ∧
    calculateArea Real.pi "i_beam" iBeamDims ≠ .ok 4800 := by
  constructor
  · simp [calculateArea, getR, getProp, List.lookup, iBeamDims]
    norm_num
  · simp [calculateArea, getR, getProp, List.lookup, iBeamDims]
    norm_num

/-- C8 (amended).  For type i_beam with width 150, height 300, web_thickness 8
and flange_thickness 12, `calculateArea` -- height*web_thickness +
2*width*flange_thickness -- returns 6000, in any model of the number line. -/
theorem c8_ibeam_area (pi : K) : calculateArea pi "i_beam" iBeamDims = .ok 6000 := by
  simp [calculateArea, getR, getProp, List.lookup, iBeamDims]
  norm_num

/-- C5.  Every calculator operation answers an unrecognised profile type with
the hard error "Unsupported profile type: ..." and no numeric result, and
answers each of the six recognised values with an ok result, never that
error. -/
theorem c5_unsupported_profile_type_hard_error (pi : K) (sqrt : K → K) (t : String)
    (d : Dimensions) (density : K) :
    if isProfileTypeValue t then
      (∃ x, calculateArea pi t d = .ok x) ∧
      (∃ x, calculateMomentOfInertiaX pi t d = .ok x) ∧
      (∃ x, calculateSectionModulusX pi t d = .ok x) ∧
      (∃ x, calculateWeightPerLength pi t d density = .ok x) ∧
      (∃ x, calculateRadiusOfGyration pi sqrt t d = .ok x)
    else
      calculateArea pi t d = .error (unsupportedMsg t) ∧
      calculateMomentOfInertiaX pi t d = .error (unsupportedMsg t) ∧
      calculateSectionModulusX pi t d = .error (unsupportedMsg t) ∧
      calculateWeightPerLength pi t d density = .error (unsupportedMsg t) ∧
      calculateRadiusOfGyration pi sqrt t d = .error (unsupportedMsg t) := by
  by_cases hv : isProfileTypeValue t = true
  · rw [if_pos hv]
    by_cases h1 : t = "round_tube"
    · subst h1
      exact ⟨⟨_, rfl⟩, ⟨_, rfl⟩, ⟨_, rfl⟩, ⟨_, rfl⟩, ⟨_, rfl⟩⟩
    by_cases h2 : t = "square_tube"
    · subst h2
      exact ⟨⟨_, rfl⟩, ⟨_, rfl⟩, ⟨_, rfl⟩, ⟨_, rfl⟩, ⟨_, rfl⟩⟩
    by_cases h3 : t = "rectangular_tube"
    · subst h3
      exact ⟨⟨_, rfl⟩, ⟨_, rfl⟩, ⟨_, rfl⟩, ⟨_, rfl⟩, ⟨_, rfl⟩⟩
    by_cases h4 : t = "angle"
    · subst h4
      exact ⟨⟨_, rfl⟩, ⟨_, rfl⟩, ⟨_, rfl⟩, ⟨_, rfl⟩, ⟨_, rfl⟩⟩
    by_cases h5 : t = "channel"
    · subst h5
      exact ⟨⟨_, rfl⟩, ⟨_, rfl⟩, ⟨_, rfl⟩, ⟨_, rfl⟩, ⟨_, rfl⟩⟩
    by_cases h6 : t = "i_beam"
    · subst h6
      exact ⟨⟨_, rfl⟩, ⟨_, rfl⟩, ⟨_, rfl⟩, ⟨_, rfl⟩, ⟨_, rfl⟩⟩
    exact absurd hv (by simp [isProfileTypeValue, h1, h2, h3, h4, h5, h6])
  · rw [if_neg hv]
    have h1 : t ≠ "round_tube" := fun h => hv (by rw [h]; rfl)
    have h2 : t ≠ "square_tube" := fun h => hv (by rw [h]; rfl)
    have h3 : t ≠ "rectangular_tube" := fun h => hv (by rw [h]; rfl)
    have h4 : t ≠ "angle" := fun h => hv (by rw [h]; rfl)
    have h5 : t ≠ "channel" := fun h => hv (by rw [h]; rfl)
    have h6 : t ≠ "i_beam" := fun h => hv (by rw [h]; rfl)
    refine ⟨?_, ?_, ?_, ?_, ?_⟩ <;>
      simp [calculateArea, calculateMomentOfInertiaX, calculateSectionModulusX,
        calculateWeightPerLength, calculateRadiusOfGyration, h1, h2, h3, h4, h5, h6]

/-- C7 (counterexample).  With the claim's own millimetre inputs
(diameter 100, thickness 5) and density 7850, the returned value is
3728750*pi, about 1.17 x 10^7, nowhere near 11.71471; and even with the same
lengths expressed in metres the result 2983/800*pi misses 11.71471 by about
0.0005 (the true value is about 11.71421). -/
theorem c7_counterexample_weight_value :
    calculateWeightPerLength Real.pi "round_tube" roundTubeDims 7850 =
      .ok (3728750 * Real.pi) ∧
    (11.71471 : ℝ) + 1 < 3728750 * Real.pi ∧
    calculateWeightPerLength Real.pi "round_tube" roundTubeDimsMetres 7850 =
      .ok (2983 / 800 * Real.pi) ∧
    2983 / 800 * Real.pi < (11.71471 : ℝ) - 1 / 10000 := by
  refine ⟨?_, ?_, ?_, ?_⟩
  · simp [calculateWeightPerLength, calculateArea, getR, getProp, List.lookup, roundTubeDims]
    ring
  · linarith [Real.pi_gt_d6]
  · simp [calculateWeightPerLength, calculateArea, getR, getProp, List.lookup,
      roundTubeDimsMetres]
    ring
  · linarith [Real.pi_lt_d6]

/-- C7 (amended).  `calculateWeightPerLength` is exactly area times the
caller-supplied density -- no unit conversion, no material lookup -- and on the
round tube with its lengths pre-converted to metres (0.1 m, 0.005 m) at
density 7850 it returns 2983/800*pi, within 0.001 of 11.71421 kg/m. -/
theorem c7_weight_is_area_times_density (pi : K) (t : String) (d : Dimensions)
    (density : K) :
    calculateWeightPerLength pi t d density = (calculateArea pi t d).map (· * density) ∧
    calculateWeightPerLength Real.pi "round_tube" roundTubeDimsMetres 7850 =
      .ok (2983 / 800 * Real.pi) ∧
    |2983 / 800 * Real.pi - (11.71421 : ℝ)| < 1 / 1000 := by
  refine ⟨?_, ?_, ?_⟩
  · unfold calculateWeightPerLength
    cases calculateArea pi t d <;> rfl
  · simp [calculateWeightPerLength, calculateArea, getR, getProp, List.lookup,
      roundTubeDimsMetres]
    ring
  · rw [abs_sub_lt_iff]
    constructor <;> linarith [Real.pi_gt_d6, Real.pi_lt_d6]

/-- C9 (counterexample).  On the unknown type "hexagon" the registry lookups
return silent defaults, not an explicit error result: `getDimensionLimits`
returns the empty limits object and the dimension tables yield no entry. -/
theorem c9_counterexample_silent_empty_limits :
    getDimensionLimits "hexagon" = [] ∧ RequiredDimensions "hexagon" = none ∧
    OptionalDimensions "hexagon" = none := by
  refine ⟨rfl, rfl, rfl⟩

/-- C9 (amended).  For every type outside the six recognised values the
registry lookups yield silent empty or absent defaults: `getDimensionLimits`
returns the empty limits object (`specificLimits[type] || {}`) and the
required/optional dimension tables yield `undefined`; the only explicit
invalid-type error result comes from `validateDimensions` itself. -/
theorem c9_unknown_type_lookups_silent (t : String) (h : isProfileTypeValue t = false) :
    getDimensionLimits t = [] ∧ RequiredDimensions t = none ∧
    OptionalDimensions t = none := by
  have hne : ¬(t = "round_tube" ∨ t = "square_tube" ∨ t = "rectangular_tube" ∨
      t = "angle" ∨ t = "channel" ∨ t = "i_beam") := by
    intro hmem
    have : isProfileTypeValue t = true := by
      rcases hmem with rfl | rfl | rfl | rfl | rfl | rfl <;> rfl
    rw [h] at this
    cases this
  push_neg at hne
  obtain ⟨h1, h2, h3, h4, h5, h6⟩ := hne
  refine ⟨?_, ?_, ?_⟩ <;>
    simp [getDimensionLimits, RequiredDimensions, OptionalDimensions, h1, h2, h3, h4, h5, h6]

/-- Witness for C9's amended theorem at the concrete unknown type "pipe". -/
theorem c9_unknown_type_lookups_silent_witness :
    isProfileTypeValue "pipe" = false ∧
    (getDimensionLimits "pipe" = [] ∧ RequiredDimensions "pipe" = none ∧
      OptionalDimensions "pipe" = none) :=
  ⟨rfl, c9_unknown_type_lookups_silent "pipe" rfl⟩

/-- Appending an error leaves the error list non-empty. -/
lemma isEmpty_append_singleton (l : List String) (msg : String) :
    (l ++ [msg]).isEmpty = false := by
  cases l <;> rfl

/-- After `pushError` the result is invalid and its error list non-empty. -/
lemma pushError_invariant (r : ValidationResult) (msg : String) :
    (pushError r msg).isValid = (pushError r msg).errors.isEmpty := by
  simp [pushError, isEmpty_append_singleton]

/-- One required-dimension step preserves `isValid = errors.isEmpty`. -/
lemma checkRequired_invariant (d : Dimensions) (r : ValidationResult) (dim : String)
    (h : r.isValid = r.errors.isEmpty) :
    (checkRequired d r dim).isValid = (checkRequired d r dim).errors.isEmpty := by
  unfold checkRequired
  cases getProp d dim with
  | none => exact pushError_invariant r _
  | some v =>
    dsimp only
    by_cases hb : (!v.isNumberType || v.toNum.le0) = true
    · rw [if_pos hb]
      exact pushError_invariant r _
    · rw [if_neg hb]
      exact h

/-- One optional-dimension step preserves `isValid = errors.isEmpty`:
warnings touch neither field. -/
lemma checkOptional_invariant (d : Dimensions) (r : ValidationResult) (dim : String)
    (h : r.isValid = r.errors.isEmpty) :
    (checkOptional d r dim).isValid = (checkOptional d r dim).errors.isEmpty := by
  unfold checkOptional
  cases getProp d dim with
  | none => exact h
  | some v =>
    dsimp only
    by_cases hb : (!v.isNumberType || v.toNum.lt0) = true
    · rw [if_pos hb]
      exact h
    · rw [if_neg hb]
      exact h

/-- Folding an invariant-preserving step over a list preserves the
invariant. -/
lemma foldl_invariant (f : ValidationResult → String → ValidationResult)
    (hf : ∀ r s, r.isValid = r.errors.isEmpty → (f r s).isValid = (f r s).errors.isEmpty) :
    ∀ (l : List String) (r : ValidationResult), r.isValid = r.errors.isEmpty →
      (l.foldl f r).isValid = (l.foldl f r).errors.isEmpty
  | [], _, h => h
  | a :: l, r, h => foldl_invariant f hf l (f r a) (hf r a h)

/-- The profile-specific switch preserves `isValid = errors.isEmpty`. -/
lemma specificCheck_invariant (t : String) (d : Dimensions) (r : ValidationResult)
    (h : r.isValid = r.errors.isEmpty) :
    (specificCheck t d r).isValid = (specificCheck t d r).errors.isEmpty := by
  unfold specificCheck
  split_ifs <;> first | exact pushError_invariant r _ | exact h

/-- Every result the post-type-check body returns satisfies the invariant. -/
lemma validateAfterTypeCheck_invariant (t : String) (d : Dimensions)
    (r : ValidationResult) (h : validateAfterTypeCheck t d = .ok r) :
    r.isValid = r.errors.isEmpty := by
  unfold validateAfterTypeCheck at h
  cases hR : RequiredDimensions t with
  | none =>
    rw [hR] at h
    cases h
  | some req =>
    rw [hR] at h
    cases hO : OptionalDimensions t with
    | none =>
      rw [hO] at h
      cases h
    | some opt =>
      rw [hO] at h
      simp only [Except.ok.injEq] at h
      subst h
      exact specificCheck_invariant t d _
        (foldl_invariant _ (checkOptional_invariant d) opt _
          (foldl_invariant _ (checkRequired_invariant d) req ⟨true, [], []⟩ rfl))

/-- C10.  In both validator copies every produced ValidationResult has
isValid = true exactly when its error list is empty: the result starts as
isValid = true with no errors, every appended error also sets isValid to
false, and warnings never change either field. -/
theorem c10_isvalid_iff_no_errors (t : String) (d : Dimensions)
    (r s : ValidationResult) (h : validateDimensions t d = .ok r)
    (h2 : validateDimensionsTest t d = .ok s) :
    r.isValid = r.errors.isEmpty ∧ s.isValid = s.errors.isEmpty := by
  constructor
  · unfold validateDimensions at h
    by_cases hk : isProfileTypeKey t = true
    · rw [if_pos hk] at h
      exact validateAfterTypeCheck_invariant t d r h
    · rw [if_neg hk] at h
      simp only [Except.ok.injEq] at h
      subst h
      rfl
  · unfold validateDimensionsTest at h2
    by_cases hk : isProfileTypeValue t = true
    · rw [if_pos hk] at h2
      exact validateAfterTypeCheck_invariant t d s h2
    · rw [if_neg hk] at h2
      simp only [Except.ok.injEq] at h2
      subst h2
      rfl

/-- Witness for C10 at the round tube: the module validator produces its
fail-fast result and the test-page copy a fully validated one. -/
theorem c10_isvalid_iff_no_errors_witness :
    (⟨false, ["Invalid profile type: round_tube"], []⟩ : ValidationResult).isValid =
      (⟨false, ["Invalid profile type: round_tube"], []⟩ : ValidationResult).errors.isEmpty ∧
    (⟨true, [], []⟩ : ValidationResult).isValid =
      (⟨true, [], []⟩ : ValidationResult).errors.isEmpty :=
  c10_isvalid_iff_no_errors "round_tube" roundTubeDims
    ⟨false, ["Invalid profile type: round_tube"], []⟩ ⟨true, [], []⟩ rfl
    (by
      simp [validateDimensionsTest, validateAfterTypeCheck, isProfileTypeValue,
        RequiredDimensions, OptionalDimensions, checkRequired, checkOptional, specificCheck,
        getProp, propNum, pushError, pushWarning, JSVal.isNumberType, JSVal.toNum,
        JSNum.le0, JSNum.lt0, JSNum.ge, JSNum.half, JSNum.min, List.lookup, roundTubeDims]
      norm_num)

end ProfileCalc
